import Mathlib

/-!
Verification of the StudyMate presentation layer (src/app.py).

The repository is a single Streamlit script.  We give a shallow embedding of
one run of its `main()` function: session state (the keys `studymate`,
`chat_history`, `question_input` of `st.session_state`), widget inputs
(uploaded files, the five buttons), and the assistant (`StudyMate`) as an
opaque oracle whose four operations return structured records.  A run
produces the new session state, the ordered list of rendered UI events, the
ordered list of assistant calls, and whether `st.rerun()` was hit (which
stops the script at that point, so later sections render nothing this run).

Python floats (confidence, relevance, times) are modelled as rationals;
the claims only compare them, never do float arithmetic.  String formatting
of numbers (`:.1%`, `:.2f`, `:,`) is abstracted by keeping the numeric
payload in the corresponding event constructor.
-/

/-- One entry of an answer's `sources` list: `{filename, relevance_score}`. -/
structure Source where
  filename : String
  relevance_score : ℚ
deriving DecidableEq, Repr

/-- The record returned by `StudyMate.ask_question`
(`{success, answer, confidence, sources}`). -/
structure AnswerRecord where
  success : Bool
  answer : String
  confidence : ℚ
  sources : List Source
deriving DecidableEq, Repr

/-- One entry of `upload_documents`' `processed_files`:
`{filename, chunks, size}`. -/
structure FileInfo where
  filename : String
  chunks : Nat
  size : Nat
deriving DecidableEq, Repr

/-- The record returned by `StudyMate.upload_documents`
(`{success, processed_files, total_chunks, errors}`). -/
structure UploadResult where
  success : Bool
  processed_files : List FileInfo
  total_chunks : Nat
  errors : List String
deriving DecidableEq, Repr

/-- The `vector_store_stats` sub-record of the system status; `none` models a
falsy (empty) dict, matching `if status['vector_store_stats']:`. -/
structure VectorStoreStats where
  total_documents : Nat
deriving DecidableEq, Repr

/-- The record returned by `StudyMate.get_system_status`. -/
structure SystemStatus where
  initialized : Bool
  uploaded_files : List String
  vector_store_stats : Option VectorStoreStats
  llm_connection : Bool
deriving DecidableEq, Repr

/-- A file value delivered by the `st.file_uploader` widget. -/
structure UFile where
  name : String
deriving DecidableEq, Repr

/-- One entry of the UI-owned `st.session_state.chat_history` list, as
appended at app.py lines 188-193. -/
structure ChatRecord where
  question : String
  response : AnswerRecord
  timestamp : ℚ
  response_time : ℚ
deriving DecidableEq, Repr

/-- The `StudyMate` assistant as an oracle: the class itself lives outside
`src/`, so the UI claims are quantified over its observable behaviour. -/
structure StudyMate where
  status : SystemStatus
  uploadResult : List UFile → UploadResult
  askResponse : String → AnswerRecord

/-- The part of `st.session_state` the script reads and writes. -/
structure SessionState where
  studymate : StudyMate
  chat_history : List ChatRecord
  question_input : String

/-- Widget inputs for one run: the uploader's current file list and which
buttons returned `True` this run. -/
structure WidgetInput where
  uploaded_files : List UFile
  process_clicked : Bool
  clear_session_clicked : Bool
  ask_clicked : Bool
  clear_clicked : Bool
  sample_pdf_exists : Bool
deriving DecidableEq, Repr

/-- The three `time.time()` readings taken on the ask path
(`start_time`, the reading after `ask_question`, and the `timestamp`). -/
structure Clock where
  t0 : ℚ
  t1 : ℚ
  t2 : ℚ
deriving DecidableEq, Repr

/-- A rendered Streamlit element.  Constructors mirror the `st.*` calls;
numeric payloads stand for their Python-formatted display. -/
inductive UIEvent where
  | markdown (s : String)
  | subheader (s : String)
  | info (s : String)
  | success (s : String)
  | warning (s : String)
  | error (s : String)
  | metric (label : String) (value : Nat)
  | write (fileInfo : FileInfo)
  | expanderBegin (label : String) (expanded : Bool)
  | expanderEnd
  | downloadButton (file_name : String)
  | progress (confidence : ℚ)
  | caption (response_time : ℚ)
  | sourceLine (filename : String) (relevance_score : ℚ)
deriving DecidableEq, Repr

/-- A call made on the `StudyMate` instance during a run. -/
inductive AssistantCall where
  | getSystemStatus
  | uploadDocuments (files : List UFile)
  | askQuestion (question : String)
  | clearSession
deriving DecidableEq, Repr

/-- Result of one run of `main()`. -/
structure RunResult where
  session : SessionState
  events : List UIEvent
  calls : List AssistantCall
  reran : Bool

/-- Python `str.strip()`: drop leading and trailing whitespace (modelled on
the character list so that it evaluates by kernel reduction). -/
def pyStrip (s : String) : String :=
  ⟨((s.data.dropWhile Char.isWhitespace).reverse.dropWhile Char.isWhitespace).reverse⟩

/-- Python `str.endswith(suffix)`, as a suffix test on the character list. -/
def strEndsWith (s suffix : String) : Bool :=
  List.isSuffixOf suffix.data s.data

/-- app.py lines 102-113: display of an `upload_documents` result.  On
`success`, the processed files are listed inside an expander; otherwise a
header plus one `st.error` per string in `errors`. -/
def processResultsEvents (results : UploadResult) : List UIEvent :=
  if results.success then
    [UIEvent.success
        ("✅ Successfully processed " ++ toString results.processed_files.length
          ++ " documents!"),
      UIEvent.info ("📊 Total text chunks created: " ++ toString results.total_chunks),
      UIEvent.expanderBegin "📋 View Processed Files" false] ++
    results.processed_files.map (fun file_info => UIEvent.write file_info) ++
    [UIEvent.expanderEnd]
  else
    UIEvent.error "❌ Error processing documents:" ::
      results.errors.map (fun e => UIEvent.error ("• " ++ e))

/-- app.py lines 95-113: the `if uploaded_files:` block. -/
def uploadEvents (sm : StudyMate) (w : WidgetInput) : List UIEvent :=
  if w.uploaded_files.isEmpty then []
  else
    UIEvent.info ("📁 " ++ toString w.uploaded_files.length ++ " file(s) selected") ::
      (if w.process_clicked then processResultsEvents (sm.uploadResult w.uploaded_files)
       else [])

/-- The `upload_documents` call recorded by the `if uploaded_files:` block
when the Process Documents button was clicked. -/
def uploadCalls (w : WidgetInput) : List AssistantCall :=
  if w.uploaded_files.isEmpty then []
  else if w.process_clicked then [AssistantCall.uploadDocuments w.uploaded_files]
  else []

/-- app.py lines 118-134: system-status metrics and the LLM-connection
status (Ready vs Demo Mode). -/
def statusEvents (status : SystemStatus) : List UIEvent :=
  (if status.initialized then
    [UIEvent.success "✅ System Ready",
      UIEvent.metric "📁 Loaded Files" status.uploaded_files.length] ++
    (match status.vector_store_stats with
      | some stats => [UIEvent.metric "📊 Document Chunks" stats.total_documents]
      | none => [])
  else [UIEvent.warning "⚠️ No documents uploaded yet"]) ++
  (if status.llm_connection then [UIEvent.success "🤖 AI Model: Ready"]
  else
    [UIEvent.warning "🤖 AI Model: Demo Mode",
      UIEvent.info "💡 Upload documents and ask questions to see the demo in action!"])

/-- app.py lines 137-145: the sample-PDF download button, shown when the
sample file exists on disk. -/
def sampleEvents (w : WidgetInput) : List UIEvent :=
  if w.sample_pdf_exists then [UIEvent.downloadButton "sample_study_material.pdf"]
  else []

/-- app.py line 210: the expander label,
`f"💬 {chat['question'][:80]}{'...' if len(chat['question']) > 80 else ''}"`. -/
def chatLabel (question : String) : String :=
  "💬 " ++ question.take 80 ++ (if question.length > 80 then "..." else "")

/-- app.py lines 210-241: rendering of one chat-history record; `i` is its
index in the displayed (reversed) list, the first being expanded. -/
def renderChat (i : Nat) (chat : ChatRecord) : List UIEvent :=
  [UIEvent.expanderBegin (chatLabel chat.question) (i == 0),
    UIEvent.markdown ("**❓ Your Question:**\n" ++ chat.question)] ++
  (if chat.response.success then
    [UIEvent.markdown ("**🤖 StudyMate's Answer:**\n" ++ chat.response.answer)] ++
    (if 0 < chat.response.confidence then [UIEvent.progress chat.response.confidence]
     else []) ++
    [UIEvent.caption chat.response_time] ++
    (if chat.response.sources.isEmpty then []
     else
       UIEvent.markdown "**� Sources:**" ::
         (chat.response.sources.take 3).map
           (fun source => UIEvent.sourceLine source.filename source.relevance_score))
  else [UIEvent.error ("❌ Error: " ++ chat.response.answer)]) ++
  [UIEvent.expanderEnd]

/-- The `for i, chat in enumerate(...)` loop of app.py line 209. -/
def renderChats (i : Nat) : List ChatRecord → List UIEvent
  | [] => []
  | chat :: rest => renderChat i chat ++ renderChats (i + 1) rest

/-- `chat_history[-5:]`: the last `n` elements of a Python list. -/
def lastN (n : Nat) (xs : List ChatRecord) : List ChatRecord :=
  xs.drop (xs.length - n)

/-- app.py lines 243-271: the Get Started block shown when there are no
conversations yet. -/
def welcomeEvents : List UIEvent :=
  [UIEvent.markdown "### 🎯 Get Started",
    UIEvent.markdown "**📄 Step 1: Upload Documents**\n- Click \"Choose PDF files\" to upload your study materials\n- Support for multiple PDFs at once\n- Automatic text extraction and processing",
    UIEvent.markdown "**💬 Step 2: Ask Questions**\n- Type your questions in natural language\n- Get contextual answers from your documents\n- View sources and confidence scores",
    UIEvent.info "💡 **Quick Tips:**\n- Ask specific questions for better answers\n- Try questions like \"What is...\" or \"Explain...\"\n- Use the sample PDF to test the system\n- View conversation history to track your learning"]

/-- app.py lines 204-271: the full-width section after the two columns —
either the conversation history (last 5 records, most recent first) or the
welcome block. -/
def historySectionEvents (chat_history : List ChatRecord) : List UIEvent :=
  if chat_history.isEmpty then welcomeEvents
  else
    UIEvent.markdown "### 📝 Conversation History" ::
      renderChats 0 (lastN 5 chat_history).reverse

/-- app.py lines 273-283: the footer. -/
def footerEvents : List UIEvent :=
  [UIEvent.markdown "---",
    UIEvent.markdown "🤖 Powered by IBM Granite 3.3 2B • 🧠 Enhanced Reasoning • 🔍 FAISS Vector Search\nStudyMate - Your AI Academic Assistant for Intelligent Document Interaction"]

/-- The page header of app.py lines 67-72 (the static CSS block of lines
26-64 renders no information and is not modelled). -/
def headerEvents : List UIEvent :=
  [UIEvent.markdown "📚 StudyMate - AI Academic Assistant (Granite 3.3 2B)\nUpload your study materials and ask questions with enhanced AI reasoning"]

/-- app.py lines 81-153: everything the left column renders — the upload
section, the system status, and the sample-download button.  The Clear
Session button at its end is handled in `runMain`. -/
def col1Events (sm : StudyMate) (w : WidgetInput) : List UIEvent :=
  UIEvent.subheader "📄 Upload Study Materials" ::
    uploadEvents sm w ++
    (UIEvent.markdown "### ⚙️ System Status" :: statusEvents sm.status) ++
    sampleEvents w

/-- One run of `main()` (app.py lines 22-283; the name `main` is reserved
in Lean, hence `runMain`).  Execution is sequential; `st.rerun()` (lines
151, 177, 197) stops the script, so a result with `reran = true` carries
only the events rendered before that point. -/
def runMain (s : SessionState) (w : WidgetInput) (clk : Clock) : RunResult :=
  let sm := s.studymate
  let col1evs := col1Events sm w
  let col1calls := AssistantCall.getSystemStatus :: uploadCalls w
  if w.clear_session_clicked then
    { session := { s with chat_history := [] },
      events := headerEvents ++ col1evs,
      calls := col1calls ++ [AssistantCall.clearSession],
      reran := true }
  else
    let evsToCol2 := headerEvents ++ col1evs ++ [UIEvent.subheader "💬 Ask Questions"]
    if w.clear_clicked then
      { session := { s with question_input := "" },
        events := evsToCol2,
        calls := col1calls,
        reran := true }
    else
      let question := s.question_input
      if w.ask_clicked = true ∧ question ≠ "" ∧ 2 < (pyStrip question).length then
        let response := sm.askResponse question
        { session :=
            { s with
              chat_history := s.chat_history ++
                [{ question := question, response := response,
                   timestamp := clk.t2, response_time := clk.t1 - clk.t0 }],
              question_input := "" },
          events := evsToCol2,
          calls := col1calls ++ [AssistantCall.askQuestion question],
          reran := true }
      else
        let warnEvs :=
          if w.ask_clicked = true ∧ (question = "" ∨ (pyStrip question).length ≤ 2) then
            [UIEvent.warning "⚠️ Please enter a question with at least 3 characters."]
          else []
        { session := s,
          events := evsToCol2 ++ warnEvs ++
            historySectionEvents s.chat_history ++ footerEvents,
          calls := col1calls,
          reran := false }

/-- The session-state keys initialised at app.py lines 16-20; `none` models
a key absent from `st.session_state`. -/
structure RawSessionState where
  studymate : Option StudyMate
  chat_history : Option (List ChatRecord)

/-- app.py lines 16-20: `StudyMate()` and the empty history are assigned
only when their key is absent; `fresh` stands for the `StudyMate()`
constructor's result. -/
def initSession (raw : RawSessionState) (fresh : StudyMate) : RawSessionState :=
  let raw1 :=
    if raw.studymate.isNone then { raw with studymate := some fresh } else raw
  if raw1.chat_history.isNone then { raw1 with chat_history := some ([] : List ChatRecord) }
  else raw1

/-- Projection selecting `expander` events (label and `expanded` flag). -/
def expanderOf : UIEvent → Option (String × Bool)
  | UIEvent.expanderBegin label expanded => some (label, expanded)
  | _ => none

/-- The expanders rendered in an event list, in order. -/
def extractExpanders (evs : List UIEvent) : List (String × Bool) :=
  evs.filterMap expanderOf

/-- Projection selecting source-list lines (filename and relevance). -/
def sourceLineOf : UIEvent → Option (String × ℚ)
  | UIEvent.sourceLine filename relevance_score => some (filename, relevance_score)
  | _ => none

/-- The source-list lines rendered in an event list, in order. -/
def sourceLines (evs : List UIEvent) : List (String × ℚ) :=
  evs.filterMap sourceLineOf

/-- Whether an event is an `st.error` box. -/
def isErrorEvent : UIEvent → Bool
  | UIEvent.error _ => true
  | _ => false

/-- Number of `clear_session` calls in a call list. -/
def countClearSession : List AssistantCall → Nat
  | [] => 0
  | AssistantCall.clearSession :: rest => countClearSession rest + 1
  | _ :: rest => countClearSession rest

/-- app.py line 88: the `type=['pdf']` argument of `st.file_uploader`. -/
def uploaderTypes : List String := ["pdf"]

/-- Modelled from the spec: the file-upload widget only delivers files whose
extension is one of its configured `type` list (allowed file extensions,
"PDF only in the reference deployment"); the widget itself is external. -/
def matchesUploaderTypes (f : UFile) : Bool :=
  uploaderTypes.any (fun t => strEndsWith f.name ("." ++ t))

/-- A concrete assistant used to evaluate the embedding at specific inputs:
one file processes (3 chunks), another fails, so `upload_documents` reports
`success = true` with a non-empty `errors` list. -/
def cexStudyMate : StudyMate where
  status :=
    { initialized := true, uploaded_files := ["good.pdf"],
      vector_store_stats := some ⟨3⟩, llm_connection := true }
  uploadResult := fun _ =>
    { success := true, processed_files := [⟨"good.pdf", 3, 2048⟩],
      total_chunks := 3, errors := ["bad.pdf: no extractable text"] }
  askResponse := fun _ =>
    { success := true, answer := "An answer.", confidence := 1/2, sources := [] }

/-- Session state holding `cexStudyMate` with an empty history. -/
def cexSession : SessionState where
  studymate := cexStudyMate
  chat_history := []
  question_input := ""

/-- Widget inputs: two files selected and Process Documents clicked. -/
def cexWidget : WidgetInput where
  uploaded_files := [⟨"good.pdf"⟩, ⟨"bad.pdf"⟩]
  process_clicked := true
  clear_session_clicked := false
  ask_clicked := false
  clear_clicked := false
  sample_pdf_exists := false

/-- A fixed clock for concrete runs. -/
def cexClock : Clock := ⟨0, 1, 1⟩

/-- A concrete assistant whose upload fails outright and whose LLM
connection is down. -/
def demoStudyMate : StudyMate where
  status :=
    { initialized := false, uploaded_files := [],
      vector_store_stats := none, llm_connection := false }
  uploadResult := fun _ =>
    { success := false, processed_files := [], total_chunks := 0,
      errors := ["bad.pdf: no extractable text", "worse.pdf: oversize"] }
  askResponse := fun q =>
    { success := true, answer := "About " ++ q, confidence := 3/4,
      sources := [⟨"good.pdf", 9/10⟩] }

/-- Session state holding `demoStudyMate` and a pending question. -/
def demoSession : SessionState where
  studymate := demoStudyMate
  chat_history := []
  question_input := "What is photosynthesis?"

/-- Widget inputs: only the Ask button clicked. -/
def askWidget : WidgetInput where
  uploaded_files := []
  process_clicked := false
  clear_session_clicked := false
  ask_clicked := true
  clear_clicked := false
  sample_pdf_exists := true

theorem extractExpanders_append (l1 l2 : List UIEvent) :
    extractExpanders (l1 ++ l2) = extractExpanders l1 ++ extractExpanders l2 :=
  List.filterMap_append l1 l2 expanderOf

theorem sourceLines_append (l1 l2 : List UIEvent) :
    sourceLines (l1 ++ l2) = sourceLines l1 ++ sourceLines l2 :=
  List.filterMap_append l1 l2 sourceLineOf

theorem extractExpanders_map_sourceLine (l : List Source) :
    extractExpanders
      (l.map (fun source => UIEvent.sourceLine source.filename source.relevance_score))
      = [] := by
  rw [extractExpanders, List.filterMap_eq_nil_iff]
  intro ev hev
  rcases List.mem_map.mp hev with ⟨s, -, rfl⟩
  rfl

theorem sourceLines_map_sourceLine (l : List Source) :
    sourceLines
      (l.map (fun source => UIEvent.sourceLine source.filename source.relevance_score))
      = l.map (fun source => (source.filename, source.relevance_score)) := by
  induction l with
  | nil => rfl
  | cons s t ih => simp [sourceLines, List.filterMap_cons, sourceLineOf] at ih ⊢; exact ih

theorem extractExpanders_renderChat (i : Nat) (chat : ChatRecord) :
    extractExpanders (renderChat i chat) = [(chatLabel chat.question, i == 0)] := by
  unfold renderChat
  split_ifs with h1 h2 h3 <;>
    simp [extractExpanders_append, extractExpanders, List.filterMap_cons, expanderOf] <;>
    · intro a ha
      rcases List.mem_map.mp (List.mem_of_mem_take ha) with ⟨s, -, rfl⟩
      rfl

theorem extractExpanders_renderChats (cs : List ChatRecord) (i : Nat) :
    extractExpanders (renderChats i cs)
      = (cs.enumFrom i).map (fun p => (chatLabel p.2.question, p.1 == 0)) := by
  induction cs generalizing i with
  | nil => rfl
  | cons c t ih =>
    simp [renderChats, extractExpanders_append, extractExpanders_renderChat, ih]

theorem lastN_reverse (n : Nat) (xs : List ChatRecord) :
    (lastN n xs).reverse = xs.reverse.take n := by
  unfold lastN
  rw [List.reverse_drop]
  by_cases h : n ≤ xs.length
  · congr 1
    omega
  · have h1 : xs.length - (xs.length - n) = xs.length := by omega
    rw [h1, List.take_of_length_le (by simp),
      List.take_of_length_le (by simp; omega)]

/-- C8: the `studymate` and `chat_history` session keys are assigned only
when absent (app.py lines 16-20): initialisation leaves present keys
untouched, and a rerun's re-initialisation of an initialised session
changes nothing, so the same assistant object and the accumulated history
are reused across reruns. -/
theorem C8_init_once (m : StudyMate) (hist : List ChatRecord)
    (raw : RawSessionState) (fresh fresh' : StudyMate) :
    initSession ⟨some m, some hist⟩ fresh = ⟨some m, some hist⟩
      ∧ initSession (initSession raw fresh) fresh' = initSession raw fresh := by
  constructor
  · rfl
  · rcases raw with ⟨sm, ch⟩
    cases sm <;> cases ch <;> rfl

theorem progress_not_mem_sourceLines (c : ℚ) (l : List Source) (n : Nat) :
    UIEvent.progress c ∉
      List.take n (l.map (fun s => UIEvent.sourceLine s.filename s.relevance_score)) := by
  intro h
  rcases List.mem_map.mp (List.mem_of_mem_take h) with ⟨s, -, hs⟩
  exact UIEvent.noConfusion hs

/-- C10: a confidence progress bar appears in a rendered chat record
exactly for a successful response with strictly positive confidence, and
it carries that confidence value; confidence 0 renders no progress bar. -/
theorem C10_progress_iff_positive_confidence (i : Nat) (chat : ChatRecord) (c : ℚ) :
    UIEvent.progress c ∈ renderChat i chat ↔
      chat.response.success = true ∧ c = chat.response.confidence
        ∧ 0 < chat.response.confidence := by
  rcases chat with ⟨q, ⟨succ, ans, conf, srcs⟩, ts, rt⟩
  cases succ with
  | false => simp [renderChat]
  | true =>
    by_cases h2 : 0 < conf <;>
      by_cases h3 : srcs.isEmpty = true <;>
        simp [renderChat, h2, h3, progress_not_mem_sourceLines]

theorem sourceLines_take_map_sourceLine (l : List Source) (n : Nat) :
    List.filterMap sourceLineOf
        (List.take n
          (l.map (fun source => UIEvent.sourceLine source.filename source.relevance_score)))
      = List.take n (l.map (fun source => (source.filename, source.relevance_score))) := by
  rw [← List.map_take, ← List.map_take]
  exact sourceLines_map_sourceLine (l.take n)

theorem sourceLine_not_mem_of_failure (f : String) (r : ℚ) (evs : List UIEvent)
    (h : ∀ ev ∈ evs, sourceLineOf ev = none) : UIEvent.sourceLine f r ∉ evs := by
  intro hmem
  have := h _ hmem
  simp [sourceLineOf] at this

/-- C3: a chat record whose response has `success = false` is rendered as an
`st.error` box carrying the record's `answer` field, with no confidence
progress bar and no source lines (app.py lines 238-239). -/
theorem C3_failure_rendering (i : Nat) (chat : ChatRecord)
    (h : chat.response.success = false) :
    UIEvent.error ("❌ Error: " ++ chat.response.answer) ∈ renderChat i chat
      ∧ (∀ c, UIEvent.progress c ∉ renderChat i chat)
      ∧ (∀ f r, UIEvent.sourceLine f r ∉ renderChat i chat) := by
  simp [renderChat, h]

/-- Witness for C3 at a concrete failed response. -/
theorem C3_failure_rendering_witness :
    UIEvent.error ("❌ Error: " ++ "Embedding failed")
        ∈ renderChat 0 ⟨"What is RAG?", ⟨false, "Embedding failed", 0, []⟩, 10, 2⟩
      ∧ UIEvent.progress (1/2)
          ∉ renderChat 0 ⟨"What is RAG?", ⟨false, "Embedding failed", 0, []⟩, 10, 2⟩
      ∧ UIEvent.sourceLine "good.pdf" (9/10)
          ∉ renderChat 0 ⟨"What is RAG?", ⟨false, "Embedding failed", 0, []⟩, 10, 2⟩ := by
  have h := C3_failure_rendering 0
    ⟨"What is RAG?", ⟨false, "Embedding failed", 0, []⟩, 10, 2⟩ rfl
  exact ⟨h.1, h.2.1 (1/2), h.2.2 "good.pdf" (9/10)⟩

/-- C9: the conversation-history section shows exactly the expanders of the
5 most recent chat records, most recent first, only the most recent one
expanded, and a successful record's source list is truncated to its first
3 entries. -/
theorem C9_history_rendering (chat_history : List ChatRecord)
    (i : Nat) (chat : ChatRecord) :
    extractExpanders (historySectionEvents chat_history)
        = (chat_history.reverse.take 5).enum.map
            (fun p => (chatLabel p.2.question, p.1 == 0))
      ∧ (extractExpanders (historySectionEvents chat_history)).length ≤ 5
      ∧ sourceLines (renderChat i chat)
        = (if chat.response.success = true
            then (chat.response.sources.take 3).map
                (fun s => (s.filename, s.relevance_score))
            else []) := by
  have hmain : extractExpanders (historySectionEvents chat_history)
      = (chat_history.reverse.take 5).enum.map
          (fun p => (chatLabel p.2.question, p.1 == 0)) := by
    unfold historySectionEvents
    rcases chat_history with _ | ⟨c, t⟩
    · rfl
    · rw [List.isEmpty_cons]
      simp only [Bool.false_eq_true, if_false]
      rw [show extractExpanders
            (UIEvent.markdown "### 📝 Conversation History" ::
              renderChats 0 (lastN 5 (c :: t)).reverse)
          = extractExpanders (renderChats 0 (lastN 5 (c :: t)).reverse) from rfl,
        extractExpanders_renderChats, lastN_reverse]
      rfl
  refine ⟨hmain, ?_, ?_⟩
  · rw [hmain]
    simp only [List.length_map, List.enum_length, List.length_take]
    omega
  · rcases chat with ⟨q, ⟨succ, ans, conf, srcs⟩, ts, rt⟩
    cases succ with
    | false => simp [renderChat, sourceLines, List.filterMap_append,
        List.filterMap_cons, sourceLineOf]
    | true =>
      by_cases h3 : srcs.isEmpty = true
      · have hnil : srcs = [] := List.isEmpty_iff.mp h3
        subst hnil
        by_cases h2 : 0 < conf <;>
          simp [renderChat, h2, sourceLines, List.filterMap_append,
            List.filterMap_cons, sourceLineOf]
      · by_cases h2 : 0 < conf <;>
          simp [renderChat, h2, h3, sourceLines, List.filterMap_append,
            List.filterMap_cons, sourceLineOf, sourceLines_take_map_sourceLine]

theorem mem_events_of_mem_col1 (s : SessionState) (w : WidgetInput) (clk : Clock)
    (ev : UIEvent) (h : ev ∈ col1Events s.studymate w) :
    ev ∈ (runMain s w clk).events := by
  simp only [runMain]
  split_ifs <;> simp [h]

theorem mem_col1_of_mem_status (sm : StudyMate) (w : WidgetInput) (ev : UIEvent)
    (h : ev ∈ statusEvents sm.status) : ev ∈ col1Events sm w := by
  simp [col1Events, List.mem_append, List.mem_cons]
  tauto

theorem mem_col1_of_mem_upload (sm : StudyMate) (w : WidgetInput) (ev : UIEvent)
    (h : ev ∈ uploadEvents sm w) : ev ∈ col1Events sm w := by
  simp [col1Events, List.mem_append, List.mem_cons]
  tauto

theorem askQuestion_not_mem_uploadCalls (q : String) (w : WidgetInput) :
    AssistantCall.askQuestion q ∉ uploadCalls w := by
  unfold uploadCalls
  split_ifs <;> simp

theorem uploadDocuments_mem_uploadCalls (fs : List UFile) (w : WidgetInput)
    (h : AssistantCall.uploadDocuments fs ∈ uploadCalls w) : fs = w.uploaded_files := by
  unfold uploadCalls at h
  split_ifs at h <;> simp at h
  exact h

theorem runMain_calls_cases (s : SessionState) (w : WidgetInput) (clk : Clock) :
    (runMain s w clk).calls
        = AssistantCall.getSystemStatus :: uploadCalls w ++ [AssistantCall.clearSession]
      ∨ (runMain s w clk).calls = AssistantCall.getSystemStatus :: uploadCalls w
      ∨ ((runMain s w clk).calls
            = AssistantCall.getSystemStatus :: uploadCalls w
                ++ [AssistantCall.askQuestion s.question_input]
          ∧ 2 < (pyStrip s.question_input).length) := by
  simp only [runMain]
  split_ifs with h1 h2 h3 h4
  · left; rfl
  · right; left; rfl
  · right; right; exact ⟨rfl, h3.2.2⟩
  · right; left; rfl
  · right; left; rfl

/-- C5: when the reported status has `llm_connection = false`, the run
renders the Demo Mode warning plus its guidance info text (app.py lines
132-134); when it is `true`, it renders the Ready success box (line 131). -/
theorem C5_llm_demo_mode (s : SessionState) (w : WidgetInput) (clk : Clock) :
    (s.studymate.status.llm_connection = false →
      UIEvent.warning "🤖 AI Model: Demo Mode" ∈ (runMain s w clk).events
        ∧ UIEvent.info "💡 Upload documents and ask questions to see the demo in action!"
            ∈ (runMain s w clk).events)
    ∧ (s.studymate.status.llm_connection = true →
        UIEvent.success "🤖 AI Model: Ready" ∈ (runMain s w clk).events) := by
  refine ⟨fun h => ⟨?_, ?_⟩, fun h => ?_⟩ <;>
    · apply mem_events_of_mem_col1
      apply mem_col1_of_mem_status
      simp [statusEvents, h]

/-- Witness for C5: a run with the LLM connection down shows the Demo Mode
warning, and one with it up shows the Ready box. -/
theorem C5_llm_demo_mode_witness :
    (UIEvent.warning "🤖 AI Model: Demo Mode"
        ∈ (runMain demoSession askWidget cexClock).events)
      ∧ (UIEvent.success "🤖 AI Model: Ready"
          ∈ (runMain cexSession cexWidget cexClock).events) :=
  ⟨((C5_llm_demo_mode demoSession askWidget cexClock).1 rfl).1,
    (C5_llm_demo_mode cexSession cexWidget cexClock).2 rfl⟩

/-- C4: clicking Clear Session calls `clear_session` exactly once, empties
the UI-owned chat history, reruns the script, and the history section of
the subsequent run shows no conversation expanders (app.py lines 148-151). -/
theorem C4_clear_session (s : SessionState) (w : WidgetInput) (clk : Clock)
    (h : w.clear_session_clicked = true) :
    countClearSession (runMain s w clk).calls = 1
      ∧ (runMain s w clk).session.chat_history = []
      ∧ (runMain s w clk).reran = true
      ∧ extractExpanders
          (historySectionEvents (runMain s w clk).session.chat_history) = [] := by
  have hc : (runMain s w clk).calls
      = AssistantCall.getSystemStatus :: uploadCalls w ++ [AssistantCall.clearSession] := by
    simp [runMain, h]
  have hh : (runMain s w clk).session.chat_history = [] := by
    simp [runMain, h]
  refine ⟨?_, hh, by simp [runMain, h], by rw [hh]; rfl⟩
  rw [hc]
  show countClearSession (uploadCalls w ++ [AssistantCall.clearSession]) = 1
  unfold uploadCalls
  split_ifs <;> rfl

/-- Witness for C4 at concrete inputs. -/
theorem C4_clear_session_witness :
    countClearSession
        (runMain demoSession
          { askWidget with clear_session_clicked := true } cexClock).calls = 1
      ∧ (runMain demoSession
          { askWidget with clear_session_clicked := true } cexClock).session.chat_history = []
      ∧ (runMain demoSession
          { askWidget with clear_session_clicked := true } cexClock).reran = true
      ∧ extractExpanders
          (historySectionEvents
            (runMain demoSession
              { askWidget with clear_session_clicked := true } cexClock).session.chat_history)
          = [] :=
  C4_clear_session demoSession { askWidget with clear_session_clicked := true } cexClock rfl

/-- C6: a successfully submitted question appends exactly one record — the
question, the full response, the third `time.time()` reading, and the
measured response time — to the chat history, clears the question input,
and leaves the assistant object in session state untouched (app.py lines
180-197). -/
theorem C6_ask_appends_one_record (s : SessionState) (w : WidgetInput) (clk : Clock)
    (ha : w.ask_clicked = true) (hcs : w.clear_session_clicked = false)
    (hcc : w.clear_clicked = false) (hlen : 2 < (pyStrip s.question_input).length) :
    (runMain s w clk).session.chat_history
        = s.chat_history ++
            [{ question := s.question_input,
               response := s.studymate.askResponse s.question_input,
               timestamp := clk.t2, response_time := clk.t1 - clk.t0 }]
      ∧ (runMain s w clk).session.question_input = ""
      ∧ (runMain s w clk).session.studymate = s.studymate := by
  have hne : s.question_input ≠ "" := by
    intro h0
    rw [h0] at hlen
    exact absurd hlen (by decide)
  simp [runMain, ha, hcs, hcc, hne, hlen]

/-- Witness for C6 at concrete inputs. -/
theorem C6_ask_appends_one_record_witness :
    (runMain demoSession askWidget cexClock).session.chat_history
        = demoSession.chat_history ++
            [{ question := demoSession.question_input,
               response := demoSession.studymate.askResponse demoSession.question_input,
               timestamp := cexClock.t2, response_time := cexClock.t1 - cexClock.t0 }]
      ∧ (runMain demoSession askWidget cexClock).session.question_input = ""
      ∧ (runMain demoSession askWidget cexClock).session.studymate
          = demoSession.studymate :=
  C6_ask_appends_one_record demoSession askWidget cexClock rfl rfl rfl (by decide)

/-- C7: if every file the uploader delivers matches its `type=['pdf']`
restriction, then every file list passed to `upload_documents` during a run
consists of files with a `.pdf` extension (app.py lines 86-100). -/
theorem C7_upload_only_pdf (s : SessionState) (w : WidgetInput) (clk : Clock)
    (hext : ∀ f ∈ w.uploaded_files, matchesUploaderTypes f = true) :
    ∀ fs, AssistantCall.uploadDocuments fs ∈ (runMain s w clk).calls →
      ∀ f ∈ fs, strEndsWith f.name ".pdf" = true := by
  intro fs hfs f hf
  have hfw : fs = w.uploaded_files := by
    rcases runMain_calls_cases s w clk with hc | hc | ⟨hc, -⟩ <;>
      rw [hc] at hfs <;>
      simp [List.mem_cons, List.mem_append] at hfs <;>
      exact uploadDocuments_mem_uploadCalls fs w hfs
  subst hfw
  have := hext f hf
  simpa [matchesUploaderTypes, uploaderTypes] using this

/-- Witness for C7: the `upload_documents` call of a concrete run receives
the widget's file list, whose files all carry the `.pdf` extension. -/
theorem C7_upload_only_pdf_witness :
    strEndsWith (UFile.mk "good.pdf").name ".pdf" = true :=
  C7_upload_only_pdf cexSession cexWidget cexClock (by decide)
    cexWidget.uploaded_files (by decide) ⟨"good.pdf"⟩ (by decide)

/-- C1: `ask_question` is called only for questions whose stripped length
exceeds 2; when Ask is clicked on an empty or ≤2-character (stripped)
question, no `ask_question` call is made and the 3-character warning is
shown instead (app.py lines 180-200). -/
theorem C1_min_question_length (s : SessionState) (w : WidgetInput) (clk : Clock) :
    (∀ q, AssistantCall.askQuestion q ∈ (runMain s w clk).calls →
        2 < (pyStrip q).length)
    ∧ (w.ask_clicked = true → w.clear_session_clicked = false →
        w.clear_clicked = false →
        (s.question_input = "" ∨ (pyStrip s.question_input).length ≤ 2) →
        UIEvent.warning "⚠️ Please enter a question with at least 3 characters."
            ∈ (runMain s w clk).events
          ∧ ∀ q, AssistantCall.askQuestion q ∉ (runMain s w clk).calls) := by
  constructor
  · intro q hq
    rcases runMain_calls_cases s w clk with hc | hc | ⟨hc, hlen⟩ <;> rw [hc] at hq <;>
      simp [List.mem_cons, List.mem_append, askQuestion_not_mem_uploadCalls] at hq
    exact hq ▸ hlen
  · intro ha hcs hcc hshort
    have hno : ¬(s.question_input ≠ "" ∧ 2 < (pyStrip s.question_input).length) := by
      rintro ⟨hne, hlt⟩
      rcases hshort with h | h
      · exact hne h
      · omega
    constructor
    · rcases hshort with h | h <;>
        simp [runMain, ha, hcs, hcc, hno, h]
    · intro q
      simp [runMain, ha, hcs, hcc, hno, askQuestion_not_mem_uploadCalls,
        List.mem_cons, List.mem_append]

/-- Witness for C1: clicking Ask on the 2-character question "Hi" shows the
warning and calls `ask_question` on nothing. -/
theorem C1_min_question_length_witness :
    UIEvent.warning "⚠️ Please enter a question with at least 3 characters."
        ∈ (runMain { demoSession with question_input := "Hi" } askWidget cexClock).events
      ∧ AssistantCall.askQuestion "Hi"
          ∉ (runMain { demoSession with question_input := "Hi" } askWidget cexClock).calls := by
  have h := (C1_min_question_length { demoSession with question_input := "Hi" }
    askWidget cexClock).2 rfl rfl rfl (Or.inr (by decide))
  exact ⟨h.1, h.2 "Hi"⟩

/-- Counterexample to C2 as stated: with one file processed and one failed,
`upload_documents` reports `success = true` together with a non-empty
`errors` list, yet the run renders no `st.error` at all — the failed file's
error string is not surfaced (app.py lines 102-113 display errors only in
the `success = false` branch). -/
theorem C2_counterexample :
    (cexStudyMate.uploadResult cexWidget.uploaded_files).success = true
      ∧ "bad.pdf: no extractable text"
          ∈ (cexStudyMate.uploadResult cexWidget.uploaded_files).errors
      ∧ AssistantCall.uploadDocuments cexWidget.uploaded_files
          ∈ (runMain cexSession cexWidget cexClock).calls
      ∧ (runMain cexSession cexWidget cexClock).events.filter isErrorEvent = []
      ∧ UIEvent.error ("• " ++ "bad.pdf: no extractable text")
          ∉ (runMain cexSession cexWidget cexClock).events := by
  refine ⟨rfl, by decide, by decide, by decide, by decide⟩

theorem bullet_line_ne_error_line (e ans : String) :
    ("• " ++ e) ≠ ("❌ Error: " ++ ans) := by
  intro h
  have h1 : ("• " ++ e).data.head? = some '•' := rfl
  rw [h] at h1
  have h2 : ("❌ Error: " ++ ans).data.head? = some '❌' := rfl
  rw [h2] at h1
  exact absurd (Option.some.inj h1) (by decide)

theorem error_not_mem_sourceLine_map (msg : String) (l : List Source) (n : Nat) :
    UIEvent.error msg ∉
      List.take n (l.map (fun s => UIEvent.sourceLine s.filename s.relevance_score)) := by
  intro h
  rcases List.mem_map.mp (List.mem_of_mem_take h) with ⟨s, -, hs⟩
  exact UIEvent.noConfusion hs

theorem bullet_not_mem_renderChat (e : String) (i : Nat) (chat : ChatRecord) :
    UIEvent.error ("• " ++ e) ∉ renderChat i chat := by
  unfold renderChat
  split_ifs with h1 h2 h3 <;>
    simp [List.mem_append, List.mem_cons, error_not_mem_sourceLine_map]
  exact bullet_line_ne_error_line e chat.response.answer

theorem bullet_not_mem_renderChats (e : String) (cs : List ChatRecord) (i : Nat) :
    UIEvent.error ("• " ++ e) ∉ renderChats i cs := by
  induction cs generalizing i with
  | nil => simp [renderChats]
  | cons c t ih =>
    simp [renderChats, List.mem_append, bullet_not_mem_renderChat, ih]

theorem bullet_not_mem_history (e : String) (hist : List ChatRecord) :
    UIEvent.error ("• " ++ e) ∉ historySectionEvents hist := by
  unfold historySectionEvents
  split_ifs with h
  · simp [welcomeEvents]
  · simp [List.mem_cons, bullet_not_mem_renderChats]

theorem error_not_mem_statusEvents (msg : String) (status : SystemStatus) :
    UIEvent.error msg ∉ statusEvents status := by
  rcases status with ⟨init, up, vss, llm⟩
  cases init <;> cases llm <;> rcases vss with _ | ⟨stats⟩ <;> simp [statusEvents]

theorem error_not_mem_sampleEvents (msg : String) (w : WidgetInput) :
    UIEvent.error msg ∉ sampleEvents w := by
  unfold sampleEvents
  split_ifs <;> simp

theorem bullet_not_mem_processResults_of_success (e : String) (results : UploadResult)
    (h : results.success = true) :
    UIEvent.error ("• " ++ e) ∉ processResultsEvents results := by
  simp [processResultsEvents, h, List.mem_append, List.mem_cons]

theorem bullet_not_mem_uploadEvents_of_success (e : String) (sm : StudyMate)
    (w : WidgetInput) (h : (sm.uploadResult w.uploaded_files).success = true) :
    UIEvent.error ("• " ++ e) ∉ uploadEvents sm w := by
  unfold uploadEvents
  split_ifs <;>
    simp [List.mem_cons,
      bullet_not_mem_processResults_of_success e (sm.uploadResult w.uploaded_files) h]

/-- C2 (amended): the strings of an `upload_documents` result's `errors`
list are each surfaced as a per-file `st.error` box only when the result's
overall `success` flag is false; when `success` is true (a partially-failed
upload), no per-file error line is displayed anywhere in the run. -/
theorem C2_amended_errors_surfaced (s : SessionState) (w : WidgetInput) (clk : Clock)
    (hne : w.uploaded_files ≠ []) (hp : w.process_clicked = true) :
    ((s.studymate.uploadResult w.uploaded_files).success = false →
      UIEvent.error "❌ Error processing documents:" ∈ (runMain s w clk).events
        ∧ ∀ e ∈ (s.studymate.uploadResult w.uploaded_files).errors,
            UIEvent.error ("• " ++ e) ∈ (runMain s w clk).events)
    ∧ ((s.studymate.uploadResult w.uploaded_files).success = true →
        ∀ e, UIEvent.error ("• " ++ e) ∉ (runMain s w clk).events) := by
  have hE : w.uploaded_files.isEmpty = false := by
    cases hE0 : w.uploaded_files.isEmpty
    · rfl
    · exact absurd (List.isEmpty_iff.mp hE0) hne
  constructor
  · intro hfail
    have hupl : uploadEvents s.studymate w
        = UIEvent.info ("📁 " ++ toString w.uploaded_files.length ++ " file(s) selected") ::
            processResultsEvents (s.studymate.uploadResult w.uploaded_files) := by
      simp [uploadEvents, hE, hp]
    have hproc : processResultsEvents (s.studymate.uploadResult w.uploaded_files)
        = UIEvent.error "❌ Error processing documents:" ::
            (s.studymate.uploadResult w.uploaded_files).errors.map
              (fun e => UIEvent.error ("• " ++ e)) := by
      simp [processResultsEvents, hfail]
    constructor
    · apply mem_events_of_mem_col1
      apply mem_col1_of_mem_upload
      rw [hupl, hproc]
      exact List.mem_cons_of_mem _ (List.mem_cons_self _ _)
    · intro e he
      apply mem_events_of_mem_col1
      apply mem_col1_of_mem_upload
      rw [hupl, hproc]
      exact List.mem_cons_of_mem _
        (List.mem_cons_of_mem _ (List.mem_map_of_mem _ he))
  · intro hsucc e
    simp only [runMain]
    split_ifs <;>
      simp [col1Events, headerEvents, footerEvents, List.mem_append, List.mem_cons,
        bullet_not_mem_uploadEvents_of_success e s.studymate w hsucc,
        error_not_mem_statusEvents ("• " ++ e) s.studymate.status,
        error_not_mem_sampleEvents ("• " ++ e) w,
        bullet_not_mem_history e s.chat_history]

/-- Witness for the amended C2: a wholly failed upload displays the header
and each per-file error string, while a partially-failed but successful
upload displays no per-file error line. -/
theorem C2_amended_errors_surfaced_witness :
    (UIEvent.error "❌ Error processing documents:"
        ∈ (runMain demoSession cexWidget cexClock).events
      ∧ UIEvent.error ("• " ++ "bad.pdf: no extractable text")
          ∈ (runMain demoSession cexWidget cexClock).events)
      ∧ UIEvent.error ("• " ++ "bad.pdf: no extractable text")
          ∉ (runMain cexSession cexWidget cexClock).events := by
  have h1 := (C2_amended_errors_surfaced demoSession cexWidget cexClock
    (by decide) rfl).1 rfl
  have h2 := (C2_amended_errors_surfaced cexSession cexWidget cexClock
    (by decide) rfl).2 rfl
  exact ⟨⟨h1.1, h1.2 "bad.pdf: no extractable text" (by decide)⟩,
    h2 "bad.pdf: no extractable text"⟩
